import Mathlib

/-
Shallow embedding of the language-server core of this repository:
  src/language_server.rs          (protocol handler, transport driver glue)
  src/language_server/format.rs   (formatting-edit computation)
The submodules document.rs and vfs.rs and the text formatter
crate::format::pretty are not part of the sources under src/; where their
behaviour is needed it is modelled from the specification, and each such
definition says so in its doc comment.  Text is modelled as its ordered
character sequence (List Char); machine integers are Nat/Int, with the one
u64 subtraction that can underflow modelled explicitly.
-/

namespace GleamLS

/-- Wire-protocol position: zero-based line and character (u64 fields in
lsp_types). -/
structure Position where
  line : Nat
  character : Nat
  deriving DecidableEq, Repr

/-- Wire-protocol range between two positions. -/
structure Range where
  start : Position
  «end» : Position
  deriving DecidableEq, Repr

/-- Wire-protocol text edit: a range to replace and the replacement text. -/
structure TextEdit where
  range : Range
  new_text : List Char
  deriving DecidableEq, Repr

/-- One didChange content change: an optional range and the new text
(lsp_types TextDocumentContentChangeEvent; its range_length field is unused
by this code and omitted). -/
structure ContentChange where
  range : Option Range
  text : List Char
  deriving DecidableEq, Repr

/-- UTF-16 code-unit width of one character. -/
def charUtf16 (c : Char) : Nat := if c.toNat < 0x10000 then 1 else 2

/-- Modelled from the spec: document.rs is not under src/.  Character index
addressed by a line/character pair, counting characters within the line in
UTF-16 code units (spec 4.2: a ranged change "splices newText into the
addressed UTF-16 coordinate span"; out-of-range behaviour is not pinned down
by the spec and this model simply keeps consuming characters). -/
def posIdx : List Char → Nat → Nat → Nat
  | [], _, _ => 0
  | c :: rest, line, chr =>
    if line = 0 then
      if chr = 0 then 0 else 1 + posIdx rest 0 (chr - charUtf16 c)
    else if c = '\n' then 1 + posIdx rest (line - 1) chr
    else 1 + posIdx rest line chr

/-- Modelled from the spec: document.rs is not under src/.  Applying one
content change: a change with no range replaces the entire text
(full-document sync); a change with a range splices the new text into the
addressed UTF-16 coordinate span (spec 4.2). -/
def applyChange (text : List Char) (c : ContentChange) : List Char :=
  match c.range with
  | none => c.text
  | some r =>
    List.take (posIdx text r.start.line r.start.character) text
      ++ c.text ++ List.drop (posIdx text r.«end».line r.«end».character) text

/-- A versioned in-memory text buffer for one open file.  The version is the
i64 LSP document version. -/
structure Document where
  version : Int
  text : List Char
  deriving DecidableEq, Repr

/-- Modelled from the spec: document.rs is not under src/.
apply_content_changes processes the changes strictly in list order
(spec 4.2).  Per the transition table of spec 4.3 the accepted change leaves
the version at serverVersion+1; the handler in src/ performs no advancement
itself, so the advancement is modelled here. -/
def Document.apply_content_changes (doc : Document) (changes : List ContentChange) : Document :=
  { version := doc.version + 1, text := changes.foldl applyChange doc.text }

/-- Modelled from the spec: vfs.rs is not under src/.  The registry is a
mapping from URI to Document with at most one entry per URI, modelled as an
association list keyed by the URI string. -/
abbrev VFS : Type := List (String × Document)

/-- Modelled from the spec: the registry's lookup of the Document currently
open at a URI, the first (and by construction only) entry with that key. -/
def VFS.lookupDoc : VFS → String → Option Document
  | [], _ => none
  | (k, v) :: rest, uri => if k == uri then some v else VFS.lookupDoc rest uri

/-- Modelled from the spec: create_document inserts a new Document at
version 0, unconditionally replacing any existing entry for that URI
(spec 4.1). -/
def VFS.create_document (vfs : VFS) (uri : String) (text : List Char) : VFS :=
  (uri, { version := 0, text := text }) :: List.filter (fun p => !(p.1 == uri)) vfs

/-- Modelled from the spec: read-only access to the Document if present,
nothing if absent (spec 4.1, read). -/
def VFS.with_document {α : Type} (vfs : VFS) (uri : String) (f : Document → α) : Option α :=
  (vfs.lookupDoc uri).map f

/-- Modelled from the spec: exclusive access to mutate the Document in place
if present; a no-op if absent (spec 4.1, mutate). -/
def VFS.modify_document (vfs : VFS) (uri : String) (f : Document → Document) : VFS :=
  List.map (fun p => if p.1 == uri then (p.1, f p.2) else p) vfs

/-- Modelled from the spec: evict removes the entry if present and never
fails (spec 4.1). -/
def VFS.evict_document (vfs : VFS) (uri : String) : VFS :=
  List.filter (fun p => !(p.1 == uri)) vfs

/-- Modelled from the spec: contents_or_disk returns the in-memory text when
the URI is open and otherwise defers to the filesystem collaborator, whose
failure is an I/O error (spec 4.1).  The collaborator is the parameter
`disk`; an I/O error is modelled by its message string. -/
def VFS.get_document_contents (vfs : VFS) (disk : String → Except String (List Char))
    (uri : String) : Except String (List Char) :=
  match vfs.lookupDoc uri with
  | some doc => .ok doc.text
  | none => disk uri

/-- Number of lines of a text as counted by Rust str::lines().count(): every
newline terminates a line, a final segment without a trailing newline counts
as one more line, and the empty text has zero lines. -/
def linesCount (l : List Char) : Nat :=
  if l = [] then 0 else List.count '\n' l + (if l.getLast? = some '\n' then 0 else 1)

/-- Byte index (UTF-8) of the last newline of the text, as computed by Rust
str::rfind("\u{5c}n") on a UTF-8 string. -/
def rfindNL : List Char → Option Nat
  | [] => none
  | c :: rest =>
    match rfindNL rest with
    | some j => some (c.utf8Size + j)
    | none => if c = '\n' then some 0 else none

/-- UTF-8 byte length of a text, as computed by Rust str::len(). -/
def utf8Len (l : List Char) : Nat := List.foldl (fun n c => n + c.utf8Size) 0 l

/-- get_final_position of format.rs.  line_count is str::lines().count();
last_line_index is rfind of the newline, defaulted to 0; last_line_cols is
the byte length minus that index.  The line is computed as the u64
subtraction line_count - 1: for the empty text line_count is 0 and the
subtraction underflows, a runtime arithmetic fault (panic under debug
assertions, wraparound to 2^64-1 in release builds); that fault is modelled
as none. -/
def get_final_position (text : List Char) : Option Position :=
  let line_count := linesCount text
  let last_line_index := (rfindNL text).getD 0
  let last_line_cols := utf8Len text - last_line_index
  if line_count = 0 then none
  else some { line := line_count - 1, character := last_line_cols }

/-- format of format.rs, parametric in the external formatter boundary
crate::format::pretty (an external collaborator per the spec; not under
src/).  Any formatter failure is discarded and replaced by the string
"Parse error"; when the formatted text equals the original the empty edit
list is returned; otherwise a single whole-document edit is returned.  The
outer Option propagates the arithmetic fault of get_final_position (none =
the call does not return normally). -/
def format (pretty : List Char → Except String (List Char)) (src : List Char) :
    Option (Except String (List TextEdit)) :=
  let original := src
  match (pretty original).mapError (fun _ => "Parse error") with
  | .error e => some (.error e)
  | .ok formatted =>
    if original = formatted then some (.ok [])
    else
      match get_final_position formatted with
      | none => none
      | some end_pos =>
        let start_pos : Position := { line := 0, character := 0 }
        let whole_doc_range : Range := { start := start_pos, «end» := end_pos }
        some (.ok [{ range := whole_doc_range, new_text := formatted }])

/-- Severity of a window/logMessage notification (tower_lsp MessageType). -/
inductive MessageType
  | error
  | warning
  | info
  deriving DecidableEq, Repr

/-- One server-initiated log notification sent to the client. -/
structure LogMessage where
  severity : MessageType
  message : String
  deriving DecidableEq, Repr

/-- Outcome of a notification handler: a normal return, or the deliberate
fatal termination of the handling path (did_change logs and then aborts on a
protocol violation).  The fatal abort is represented as a distinguished
outcome per the spec's design notes (spec 9). -/
inductive HandlerOutcome
  | normal
  | fatal
  deriving DecidableEq, Repr

/-- JSON-RPC error codes used by the server. -/
inductive ErrorCode
  | internalError
  | parseError
  deriving DecidableEq, Repr

/-- JSON-RPC request error (tower_lsp jsonrpc Error; the data field is
always None in this code and is omitted). -/
structure LspError where
  code : ErrorCode
  message : String
  deriving DecidableEq, Repr

/-- Log text of did_change for an unopened document. -/
def unopenedMsg (uri : String) : String :=
  "Received didChange event for unopened document.\n\tDocument: " ++ uri

/-- Log text of did_change for a null client version. -/
def nullVersionMsg (uri : String) : String :=
  "Received version null in didChange notification.\n\tDocument: " ++ uri

/-- Log text of did_change when the client version is ahead of the server. -/
def desyncMsg (uri : String) (server_version client_version : Int) : String :=
  "Text synchronization failed.\n\tDocument: " ++ uri ++
    "\n\tServer version: " ++ toString server_version ++
    "\n\tClient version:" ++ toString client_version

/-- Log text of did_change when the server version is ahead of the client. -/
def skippingMsg (uri : String) (server_version client_version : Int) : String :=
  "Skipping didChange - version on server newer.\n\tDocument: " ++ uri ++
    "\n\tServer version: " ++ toString server_version ++
    "\n\tClient version:" ++ toString client_version

/-- did_change of language_server.rs.  Looks up the open document's version;
if the document is unopened, logs a warning and does nothing.  Otherwise a
null client version logs an error and aborts; equal versions apply the
content changes through the registry; a client version ahead of the server
logs an error and aborts; a client version behind the server logs an
informational message and skips the change.  The result carries the new
registry, the log notifications emitted (in order, all before the handling
path ends), and the outcome. -/
def did_change (vfs : VFS) (uri : String) (version : Option Int)
    (content_changes : List ContentChange) : VFS × List LogMessage × HandlerOutcome :=
  match vfs.with_document uri Document.version with
  | none => (vfs, [{ severity := .warning, message := unopenedMsg uri }], .normal)
  | some doc_version =>
    match version with
    | none => (vfs, [{ severity := .error, message := nullVersionMsg uri }], .fatal)
    | some v =>
      match compare doc_version v with
      | .eq =>
        (vfs.modify_document uri (fun doc => doc.apply_content_changes content_changes),
          [], .normal)
      | .lt =>
        (vfs, [{ severity := .error, message := desyncMsg uri doc_version v }], .fatal)
      | .gt =>
        (vfs, [{ severity := .info, message := skippingMsg uri doc_version v }], .normal)

/-- formatting of language_server.rs: fetch the contents from the registry
or disk, surface an I/O failure as an InternalError response, then defer to
format; a format failure becomes a ParseError response carrying format's
error string, and a success becomes Ok(Some(edits)).  The outer Option
propagates the arithmetic fault of format (none = the request handler does
not return normally). -/
def formatting (pretty : List Char → Except String (List Char))
    (disk : String → Except String (List Char)) (vfs : VFS) (uri : String) :
    Option (Except LspError (Option (List TextEdit))) :=
  match vfs.get_document_contents disk uri with
  | .error io_error => some (.error { code := .internalError, message := io_error })
  | .ok doc_contents =>
    match format pretty doc_contents with
    | none => none
    | some (.ok x) => some (.ok (some x))
    | some (.error s) => some (.error { code := .parseError, message := s })

/-- shutdown of language_server.rs: a non-blocking try_write on the shutdown
flag.  `lock_available` says whether the RwLock write lock can be taken
without blocking; on success the flag is set true and Ok is returned,
otherwise an InternalError is returned and the flag is left as it was.  The
function is total: the caller is never blocked. -/
def shutdown (lock_available : Bool) (did_shutdown : Bool) : Except LspError Unit × Bool :=
  if lock_available then (.ok (), true)
  else
    (.error { code := .internalError,
              message := "Failed to lock did_shutdown_ref for writing" }, did_shutdown)

/-- Whole-server state: the registry and the shutdown flag (created false at
server start). -/
structure ServerState where
  vfs : VFS
  did_shutdown : Bool
  deriving DecidableEq, Repr

/-- One inbound protocol event of the transport loop.  A shutdown request
carries whether the flag's write lock is free (whether try_write succeeds). -/
inductive Event
  | didOpen (uri : String) (text : List Char)
  | didChange (uri : String) (version : Option Int) (changes : List ContentChange)
  | didClose (uri : String)
  | formatReq (uri : String)
  | shutdownReq (lock_available : Bool)
  deriving DecidableEq, Repr

/-- Modelled from the spec: dispatch of one inbound event to the protocol
handler (the transport driver is tower_lsp's Server, not under src/).
did_open creates the document, did_close evicts it, did_change runs the
version state machine, a formatting request only reads state (its response
goes to the output channel), and a shutdown request runs the non-blocking
flag write.  Only did_change can produce the fatal outcome. -/
def handleEvent (st : ServerState) : Event → ServerState × HandlerOutcome
  | .didOpen uri text => ({ st with vfs := st.vfs.create_document uri text }, .normal)
  | .didChange uri version changes =>
    let r := did_change st.vfs uri version changes
    ({ st with vfs := r.1 }, r.2.2)
  | .didClose uri => ({ st with vfs := st.vfs.evict_document uri }, .normal)
  | .formatReq _ => (st, .normal)
  | .shutdownReq lock_available =>
    let r := shutdown lock_available st.did_shutdown
    ({ st with did_shutdown := r.2 }, .normal)

/-- Modelled from the spec: the transport loop processes framed messages
strictly in arrival order until the input stream closes (end of the event
list) or a handler signals the fatal condition (spec 4.5). -/
def serveLoop : List Event → ServerState → ServerState
  | [], st => st
  | e :: rest, st =>
    let r := handleEvent st e
    if r.2 = .fatal then r.1 else serveLoop rest r.1

/-- True when no event of the trace drives a handler to the fatal outcome,
so the loop ends by stream closure. -/
def noFatal : List Event → ServerState → Bool
  | [], _ => true
  | e :: rest, st =>
    let r := handleEvent st e
    if r.2 = .fatal then false else noFatal rest r.1

/-- run_server of language_server.rs: create the shutdown flag as false,
serve the stream, then read the flag once and report whether the server
shut down before exiting. -/
def run_server (events : List Event) : Bool :=
  (serveLoop events { vfs := [], did_shutdown := false }).did_shutdown

/-- command of language_server.rs: exit code 0 when the server shut down
safely before exiting, 1 otherwise. -/
def command (events : List Event) : Int :=
  let shutdown_before_exiting := run_server events
  if shutdown_before_exiting then 0 else 1

/-- Formatter stub that returns its input unchanged (an idempotent,
always-succeeding formatter). -/
def prettyId : List Char → Except String (List Char) := fun s => .ok s

/-- Formatter stub that returns a fixed output for every input. -/
def prettyConst (out : List Char) : List Char → Except String (List Char) := fun _ => .ok out

/-- Formatter stub that fails with a fixed message for every input. -/
def prettyFail (msg : String) : List Char → Except String (List Char) := fun _ => .error msg

/-- Filesystem stub whose reads always fail. -/
def diskFail : String → Except String (List Char) := fun _ => .error "File read error"

/-- Comparing an integer with itself yields Ordering.eq. -/
theorem int_compare_self (a : Int) : compare a a = .eq := compare_eq_iff_eq.mpr rfl

/-- Mutating the document open at a URI changes exactly that lookup result. -/
theorem lookupDoc_modify_document (vfs : VFS) (uri : String) (f : Document → Document)
    (doc : Document) (h : vfs.lookupDoc uri = some doc) :
    (vfs.modify_document uri f).lookupDoc uri = some (f doc) := by
  induction vfs with
  | nil => simp [VFS.lookupDoc] at h
  | cons p rest ih =>
    obtain ⟨k, v⟩ := p
    rw [VFS.lookupDoc] at h
    rw [VFS.modify_document, List.map]
    by_cases hk : k = uri
    · rw [if_pos (by simp [hk])] at h
      rw [if_pos (by simp [hk])]
      rw [VFS.lookupDoc, if_pos (by simp [hk])]
      cases h
      rfl
    · rw [if_neg (by simp [hk])] at h
      rw [if_neg (by simp [hk])]
      rw [VFS.lookupDoc, if_neg (by simp [hk])]
      exact ih h

/-- A nonempty text has at least one line in the sense of str::lines(). -/
theorem linesCount_ne_zero {l : List Char} (h : l ≠ []) : linesCount l ≠ 0 := by
  unfold linesCount
  rw [if_neg h]
  rcases hg : l.getLast? with _ | c
  · exact absurd (List.getLast?_eq_none_iff.mp hg) h
  · by_cases hc : c = '\n'
    · subst hc
      rw [if_pos rfl]
      have hmem : ('\n') ∈ l := by
        obtain ⟨hne, hx⟩ := List.mem_getLast?_eq_getLast (Option.mem_def.mpr hg)
        exact hx ▸ List.getLast_mem hne
      have := List.count_pos_iff.mpr hmem
      omega
    · rw [if_neg (by simp [hc])]
      omega

/-- One dispatched event leaves the shutdown flag true exactly when it was
already true or the event is a successful shutdown request. -/
theorem handleEvent_flag (st : ServerState) (e : Event) :
    ((handleEvent st e).1).did_shutdown = true ↔
      (st.did_shutdown = true ∨ e = Event.shutdownReq true) := by
  cases e with
  | didOpen uri text => simp [handleEvent]
  | didChange uri version changes => simp [handleEvent]
  | didClose uri => simp [handleEvent]
  | formatReq uri => simp [handleEvent]
  | shutdownReq b =>
    cases b with
    | true => simp [handleEvent, shutdown]
    | false => simp [handleEvent, shutdown]

/-- Over a fatality-free trace, the loop's final shutdown flag is true
exactly when it started true or some successful shutdown request occurs in
the trace. -/
theorem serveLoop_flag (events : List Event) (st : ServerState)
    (h : noFatal events st = true) :
    ((serveLoop events st).did_shutdown = true ↔
      (st.did_shutdown = true ∨ ∃ e ∈ events, e = Event.shutdownReq true)) := by
  induction events generalizing st with
  | nil => simp [serveLoop]
  | cons e rest ih =>
    rw [noFatal] at h
    rw [serveLoop]
    by_cases hf : (handleEvent st e).2 = .fatal
    · simp [hf] at h
    · simp only [hf, if_false, if_neg hf] at h ⊢
      rw [ih _ h, handleEvent_flag]
      constructor
      · rintro (⟨hs | hse⟩ | ⟨e2, he2, hsh⟩)
        · exact Or.inl hs
        · exact Or.inr ⟨e, List.mem_cons_self e rest, hse⟩
        · exact Or.inr ⟨e2, List.mem_cons_of_mem _ he2, hsh⟩
      · rintro (hs | ⟨e2, he2, hsh⟩)
        · exact Or.inl (Or.inl hs)
        · rcases List.mem_cons.mp he2 with heq | hmem
          · exact Or.inl (Or.inr (heq ▸ hsh))
          · exact Or.inr ⟨e2, hmem, hsh⟩

/-- C1: a didChange for an open document whose client version equals the
server's document version applies the content changes in list order and
makes the document's version serverVersion+1, with no log and a normal
return; in particular delivering changes with versions 0, 1, 2 in order to a
freshly opened document applies all three and leaves the final version 3. -/
theorem c1_change_equal_version_applies_edits :
    (∀ (vfs : VFS) (uri : String) (doc : Document) (changes : List ContentChange),
      vfs.lookupDoc uri = some doc →
      (did_change vfs uri (some doc.version) changes).2.2 = HandlerOutcome.normal ∧
      (did_change vfs uri (some doc.version) changes).2.1 = [] ∧
      ((did_change vfs uri (some doc.version) changes).1).lookupDoc uri =
        some { version := doc.version + 1, text := changes.foldl applyChange doc.text }) ∧
    (let v0 := VFS.create_document [] "file:///a" "a".data
     let r1 := did_change v0 "file:///a" (some 0) [{ range := none, text := "b".data }]
     let r2 := did_change r1.1 "file:///a" (some 1) [{ range := none, text := "c".data }]
     let r3 := did_change r2.1 "file:///a" (some 2) [{ range := none, text := "d".data }]
     r1.2.2 = HandlerOutcome.normal ∧ r2.2.2 = HandlerOutcome.normal ∧
     r3.2.2 = HandlerOutcome.normal ∧
     r3.1.lookupDoc "file:///a" = some { version := 3, text := "d".data }) := by
  constructor
  · intro vfs uri doc changes h
    have hd : vfs.with_document uri Document.version = some doc.version := by
      simp [VFS.with_document, h]
    refine ⟨?_, ?_, ?_⟩
    · simp [did_change, hd, int_compare_self]
    · simp [did_change, hd, int_compare_self]
    · simp only [did_change, hd, int_compare_self]
      rw [lookupDoc_modify_document vfs uri _ doc h]
      rfl
  · decide

/-- Witness for C1 at a concrete registry: a change with client version 5 on
a document at server version 5 applies the edit and leaves version 6. -/
theorem c1_witness :
    (did_change [("u", { version := 5, text := "x".data })] "u" (some 5)
        [{ range := none, text := "y".data }]).2.2 = HandlerOutcome.normal ∧
    (did_change [("u", { version := 5, text := "x".data })] "u" (some 5)
        [{ range := none, text := "y".data }]).2.1 = [] ∧
    ((did_change [("u", { version := 5, text := "x".data })] "u" (some 5)
        [{ range := none, text := "y".data }]).1).lookupDoc "u" =
      some { version := 6, text := "y".data } :=
  c1_change_equal_version_applies_edits.1 [("u", { version := 5, text := "x".data })] "u"
    { version := 5, text := "x".data } [{ range := none, text := "y".data }] rfl

/-- C2 counterexample: the claim prescribes an end position whose line is
the formatted text's total line count and whose character is the UTF-16
length of its final line.  For formatted text "a\nb" (two lines, final line
of UTF-16 length 1) the claim prescribes end position (2,1), but the code
returns the single edit with end position (1,2): line is the line count
minus one, and character counts the bytes from the last newline's byte index
(the final line's bytes plus the newline itself). -/
theorem c2_counterexample :
    format (prettyConst "a\nb".data) "x".data =
      some (Except.ok [{ range := { start := { line := 0, character := 0 },
                                    «end» := { line := 1, character := 2 } },
                         new_text := "a\nb".data }]) ∧
    ({ line := 1, character := 2 } : Position) ≠ { line := 2, character := 1 } :=
  ⟨rfl, by decide⟩

/-- C2 (amended): when formatting succeeds, the formatted text differs from
the original and is nonempty, the result is exactly one TextEdit spanning
from the document start (0,0) to the position whose line is the formatted
text's total line count minus one and whose character is the formatted
text's UTF-8 byte length minus the byte index of its last newline (the full
byte length when it has no newline), with newText the full formatted text. -/
theorem c2_whole_document_edit (pretty : List Char → Except String (List Char))
    (src formatted : List Char) (hp : pretty src = .ok formatted)
    (hne : src ≠ formatted) (hnil : formatted ≠ []) :
    format pretty src =
      some (Except.ok [{ range := { start := { line := 0, character := 0 },
                                    «end» := { line := linesCount formatted - 1,
                                               character := utf8Len formatted -
                                                 (rfindNL formatted).getD 0 } },
                         new_text := formatted }]) := by
  have hlc := linesCount_ne_zero hnil
  simp [format, hp, Except.mapError, hne, get_final_position, hlc]

/-- Witness for C2 (amended) at formatted text "ab\n": one whole-document
edit ending at line 0, character 1. -/
theorem c2_witness :
    format (prettyConst "ab\n".data) "x".data =
      some (Except.ok [{ range := { start := { line := 0, character := 0 },
                                    «end» := { line := 0, character := 1 } },
                         new_text := "ab\n".data }]) :=
  c2_whole_document_edit (prettyConst "ab\n".data) "x".data "ab\n".data rfl
    (by decide) (by decide)

/-- C3: when the formatter's output is byte-for-byte equal to the original
source text, format returns the empty edit list as a successful result, not
an error. -/
theorem c3_canonical_text_empty_edit_list (pretty : List Char → Except String (List Char))
    (src : List Char) (h : pretty src = .ok src) :
    format pretty src = some (Except.ok []) := by
  simp [format, h, Except.mapError]

/-- Witness for C3 with the identity formatter. -/
theorem c3_witness : format prettyId "x".data = some (Except.ok []) :=
  c3_canonical_text_empty_edit_list prettyId "x".data rfl

/-- C4 counterexample: the formatter boundary fails with the message
"unexpected token", yet the server's ParseError response carries the fixed
string "Parse error" (format.rs discards the formatter's failure message),
which differs from the formatter's failure message. -/
theorem c4_counterexample :
    formatting (prettyFail "unexpected token") diskFail
        [("u", { version := 0, text := "t".data })] "u" =
      some (.error { code := ErrorCode.parseError, message := "Parse error" }) ∧
    "Parse error" ≠ "unexpected token" :=
  ⟨rfl, by decide⟩

/-- C4 (amended): when the formatter reports a parse failure on a formatting
request, the server returns a request-level ParseError whose message is the
fixed string "Parse error" (the formatter's own failure message is
discarded), and the server continues serving other requests: the request
handler returns normally and the loop is not terminated by it. -/
theorem c4_parse_failure_fixed_message (pretty : List Char → Except String (List Char))
    (disk : String → Except String (List Char)) (vfs : VFS) (uri : String)
    (contents : List Char) (e : String)
    (hc : vfs.get_document_contents disk uri = .ok contents)
    (hp : pretty contents = .error e) :
    formatting pretty disk vfs uri =
      some (.error { code := ErrorCode.parseError, message := "Parse error" }) ∧
    (∀ st : ServerState, handleEvent st (Event.formatReq uri) = (st, HandlerOutcome.normal)) := by
  constructor
  · simp [formatting, hc, format, hp, Except.mapError]
  · intro st
    rfl

/-- Witness for C4 (amended) with a concrete failing formatter. -/
theorem c4_witness :
    formatting (prettyFail "boom") diskFail [("u", { version := 0, text := "t".data })] "u" =
      some (.error { code := ErrorCode.parseError, message := "Parse error" }) ∧
    (∀ st : ServerState, handleEvent st (Event.formatReq "u") = (st, HandlerOutcome.normal)) :=
  c4_parse_failure_fixed_message (prettyFail "boom") diskFail
    [("u", { version := 0, text := "t".data })] "u" "t".data "boom" rfl rfl

/-- C5: over any trace the loop processes to stream closure (no fatal
condition), the process exit signal is clean (exit code 0) exactly when a
shutdown request succeeded in setting the flag before the stream closed, and
abnormal (exit code 1) exactly otherwise. -/
theorem c5_exit_code_iff_shutdown (events : List Event)
    (h : noFatal events { vfs := [], did_shutdown := false } = true) :
    (command events = 0 ↔ ∃ e ∈ events, e = Event.shutdownReq true) ∧
    (command events = 1 ↔ ¬ ∃ e ∈ events, e = Event.shutdownReq true) := by
  have hiff := serveLoop_flag events { vfs := [], did_shutdown := false } h
  simp only [show ({ vfs := [], did_shutdown := false } : ServerState).did_shutdown = false
    from rfl, Bool.false_eq_true, false_or] at hiff
  by_cases hb : (serveLoop events { vfs := [], did_shutdown := false }).did_shutdown = true
  · have hex := hiff.mp hb
    constructor
    · exact iff_of_true (by simp [command, run_server, hb]) hex
    · exact iff_of_false (by simp [command, run_server, hb]) (fun hn => hn hex)
  · have hnex : ¬ ∃ e ∈ events, e = Event.shutdownReq true := fun hex => hb (hiff.mpr hex)
    rw [Bool.not_eq_true] at hb
    constructor
    · exact iff_of_false (by simp [command, run_server, hb]) hnex
    · exact iff_of_true (by simp [command, run_server, hb]) hnex

/-- Witness for C5: a successful shutdown followed by stream closure exits
with code 0; immediate stream closure with no shutdown exits with code 1. -/
theorem c5_witness : command [Event.shutdownReq true] = 0 ∧ command [] = 1 := by
  constructor
  · exact (c5_exit_code_iff_shutdown [Event.shutdownReq true] rfl).1.mpr
      ⟨Event.shutdownReq true, List.mem_cons_self _ _, rfl⟩
  · exact (c5_exit_code_iff_shutdown [] rfl).2.mpr (by simp)

/-- C6: whenever did_change ends in the fatal outcome (a null version for an
open document, or a client version ahead of the server), exactly one log
message is emitted before the handling path terminates, and it has Error
severity: termination is never silent. -/
theorem c6_fatal_paths_log_error (vfs : VFS) (uri : String) (version : Option Int)
    (changes : List ContentChange)
    (h : (did_change vfs uri version changes).2.2 = HandlerOutcome.fatal) :
    ∃ m, (did_change vfs uri version changes).2.1 = [m] ∧
      m.severity = MessageType.error := by
  rcases hl : vfs.with_document uri Document.version with _ | dv
  · simp [did_change, hl] at h
  · cases version with
    | none =>
      refine ⟨{ severity := .error, message := nullVersionMsg uri }, ?_, rfl⟩
      simp [did_change, hl]
    | some v =>
      rcases hc : compare dv v with _ | _ | _
      · refine ⟨{ severity := .error, message := desyncMsg uri dv v }, ?_, rfl⟩
        simp [did_change, hl, hc]
      · simp [did_change, hl, hc] at h
      · simp [did_change, hl, hc] at h

/-- Witness for C6 at the null-version fatal path of an open document. -/
theorem c6_witness :
    ∃ m, (did_change [("u", { version := 0, text := [] })] "u" none []).2.1 = [m] ∧
      m.severity = MessageType.error :=
  c6_fatal_paths_log_error [("u", { version := 0, text := [] })] "u" none [] rfl

/-- C7: when the server's document version is greater than the client
version of a didChange, nothing is mutated — the registry (hence the
document's text and version) is returned unchanged — one
informational-severity log message is emitted, and the outcome is normal. -/
theorem c7_stale_change_skipped (vfs : VFS) (uri : String) (doc : Document) (v : Int)
    (changes : List ContentChange) (h : vfs.lookupDoc uri = some doc)
    (hv : v < doc.version) :
    did_change vfs uri (some v) changes =
      (vfs, [{ severity := MessageType.info, message := skippingMsg uri doc.version v }],
        HandlerOutcome.normal) := by
  have hd : vfs.with_document uri Document.version = some doc.version := by
    simp [VFS.with_document, h]
  have hc : compare doc.version v = .gt := compare_gt_iff_gt.mpr hv
  simp [did_change, hd, hc]

/-- Witness for C7: server at version 5 receiving a change claiming
version 3 leaves the registry unchanged and logs at Info severity. -/
theorem c7_witness :
    did_change [("u", { version := 5, text := "x".data })] "u" (some 3) [] =
      ([("u", { version := 5, text := "x".data })],
        [{ severity := MessageType.info, message := skippingMsg "u" 5 3 }],
        HandlerOutcome.normal) :=
  c7_stale_change_skipped [("u", { version := 5, text := "x".data })] "u"
    { version := 5, text := "x".data } 3 [] rfl (by decide)

/-- C8: shutdown is a non-blocking attempt to set the flag true — it is a
total function of the lock state, never waiting.  When the write lock is
free it returns Ok with the flag set true; when the lock cannot be taken
without blocking it returns the explicit contention error and leaves the
flag as it was. -/
theorem c8_shutdown_nonblocking (flag : Bool) :
    shutdown true flag = (Except.ok (), true) ∧
    shutdown false flag =
      (Except.error { code := ErrorCode.internalError,
                      message := "Failed to lock did_shutdown_ref for writing" }, flag) :=
  ⟨rfl, rfl⟩

/-- C9: for any formatter satisfying the idempotence contract of the spec
(formatting already-formatted text returns it unchanged), a formatting pass
over text the formatter has already canonicalized returns the empty edit
list. -/
theorem c9_idempotent_formatter_empty_edits (pretty : List Char → Except String (List Char))
    (hidem : ∀ x y, pretty x = .ok y → pretty y = .ok y)
    (x y : List Char) (h : pretty x = .ok y) :
    format pretty y = some (Except.ok []) := by
  simp [format, hidem x y h, Except.mapError]

/-- Witness for C9 with the identity formatter, which is idempotent. -/
theorem c9_witness : format prettyId "gleam".data = some (Except.ok []) :=
  c9_idempotent_formatter_empty_edits prettyId (fun _ _ _ => rfl)
    "gleam".data "gleam".data rfl

/-- C10: evaluation of the code at the failing input of the totality claim.
For source text "a" and formatter output "" (the empty string), the
formatted text is nonempty-different from the original, get_final_position
is reached with the empty text, its line_count is 0, and the u64 subtraction
line_count - 1 underflows: the computation is not well-defined there (a
panic under debug assertions, a wraparound position in release builds),
modelled as none. -/
theorem c10_empty_formatted_text_faults :
    format (prettyConst []) "a".data = none ∧ get_final_position [] = none :=
  ⟨rfl, rfl⟩

end GleamLS
